import Mathlib

/-!
Shallow embedding of the LinkedIn scraper repository.

The definitions below are translated from the Python sources:

* `linkedin_scraper.py` — `JobSearchRequest.__post_init__`,
  `LinkedInScraper.calculate_skill_match`, `_build_search_url`,
  `_extract_job_from_element`, `search_jobs` and the response dataclasses;
* `linkedin_scraper_final.py` — the final scraper's `calculate_skill_match`,
  `_extract_single_profile`, `_extract_text_from_card`, `_extract_profile_url`
  and `_extract_profiles_from_search_results`;
* `linkedin_profile_scraper.py` — the profile-URL cleaning in
  `search_profiles`.

Python strings are modelled as Lean `String`; the string primitives used by
the sources (`strip`, `lower`, `in`, `startswith`, `replace`, `split`,
slicing before `'?'`) are defined below over the character list so that every
definition evaluates inside the kernel.  Python `float` scores are modelled
as `ℚ`.  Browser/driver interaction is modelled by explicit environment
records describing the collaborator's outcomes.
-/

/-- ASCII whitespace stripped by Python `str.strip()`. -/
def pyIsSpace (c : Char) : Bool :=
  c == ' ' || c == '\t' || c == '\n' || c == '\r' || c == '\x0b' || c == '\x0c'

/-- Python `str.lower()` (ASCII letters; all inputs in the sources are ASCII). -/
def pyLower (s : String) : String := ⟨s.data.map Char.toLower⟩

/-- Python `str.strip()`: drop whitespace from both ends. -/
def pyStrip (s : String) : String :=
  ⟨((s.data.dropWhile pyIsSpace).reverse.dropWhile pyIsSpace).reverse⟩

/-- `skill.lower().strip()`, the normalization used by `calculate_skill_match`. -/
def pyNorm (s : String) : String := pyStrip (pyLower s)

/-- Bool test: the first character list starts the second one. -/
def startsList : List Char → List Char → Bool
  | [], _ => true
  | _ :: _, [] => false
  | a :: as, b :: bs => a == b && startsList as bs

/-- Bool test: `needle` occurs contiguously inside `hay` (Python substring `in`). -/
def occursIn (needle : List Char) : List Char → Bool
  | [] => startsList needle []
  | c :: cs => startsList needle (c :: cs) || occursIn needle cs

/-- Python `sub in s` substring test. -/
def pyIn (sub s : String) : Bool := occursIn sub.data s.data

/-- Python `s.startswith(pre)`. -/
def pyStartsWith (s pre : String) : Bool := startsList pre.data s.data

/-- Inner loop of `calculate_skill_match`: scan the normalized observed
(profile) skills until one contains the target skill or is contained in it;
the `break` makes the first success stop the scan. -/
def innerScan (t : String) : List String → Bool
  | [] => false
  | p :: ps => if pyIn t p || pyIn p t then true else innerScan t ps

/-- The matching for-loop of `calculate_skill_match`: `matched_skills` starts
empty and each normalized target skill is appended when the inner scan over
the normalized profile skills succeeds. -/
def matchLoop (pl tl : List String) : List String :=
  tl.foldl (fun acc t => if innerScan t pl then acc ++ [t] else acc) []

/-- The default `target_skills` list set in `LinkedInScraper.__init__` of
`linkedin_scraper.py`. -/
def defaultTargetSkills : List String :=
  ["Oracle", "PL/SQL", "SQL", "Database", "Oracle Database",
   "Stored Procedures", "Triggers", "Functions", "Packages",
   "Performance Tuning", "Query Optimization", "Data Modeling",
   "ETL", "Data Warehouse", "Oracle Forms", "Oracle Reports",
   "APEX", "SQL*Plus", "TOAD", "SQL Developer", "Unix",
   "Shell Scripting", "Python", "Java", "JavaScript"]

/-- The body shared verbatim by both `calculate_skill_match` implementations
(`linkedin_scraper.py` lines 222-237 and `linkedin_scraper_final.py` lines
158-173): normalize both lists, run the matching loops, and compute
`(len(matched)/len(target))*100 if target_skills else 0`. -/
def skillMatchBody (profile target : List String) : ℚ × List String :=
  let pl := profile.map pyNorm
  let tl := target.map pyNorm
  let matched := matchLoop pl tl
  (if target.isEmpty then 0
   else ((matched.length : ℚ) / (target.length : ℚ)) * 100, matched)

/-- `LinkedInScraper.calculate_skill_match` of `linkedin_scraper.py`:
`target_skills` defaults to `None`, and a falsy value (`None` or the empty
list) is replaced by the scraper's default target skills; an empty
`profile_skills` list returns `(0.0, [])`. -/
def calculate_skill_match (defaults profile : List String)
    (targets : Option (List String)) : ℚ × List String :=
  let target :=
    match targets with
    | none => defaults
    | some t => if t.isEmpty then defaults else t
  if profile.isEmpty then (0, [])
  else skillMatchBody profile target

/-- `LinkedInScraper.calculate_skill_match` of `linkedin_scraper_final.py`:
`if not target_skills or not profile_skills: return 0.0, []`. -/
def calculate_skill_match_final (profile target : List String) : ℚ × List String :=
  if target.isEmpty || profile.isEmpty then (0, [])
  else skillMatchBody profile target

/-! ### Query compiler (`LinkedInScraper._build_search_url`) -/

/-- Characters `urllib.parse.quote` leaves unescaped when called with
`safe=''` (as `urlencode(params, quote_via=quote)` does): ASCII letters,
digits, and `_.-~`. -/
def quoteSafeChar (c : Char) : Bool :=
  let n := c.toNat
  (97 ≤ n && n ≤ 122) || (65 ≤ n && n ≤ 90) || (48 ≤ n && n ≤ 57) ||
  c == '-' || c == '.' || c == '_' || c == '~'

/-- Upper-case hexadecimal digit, as produced by `urllib.parse.quote`. -/
def hexDigit (n : Nat) : Char :=
  if n < 10 then Char.ofNat (48 + n) else Char.ofNat (55 + n)

/-- One percent-escaped byte, e.g. `%2C`. -/
def percentByte (b : Nat) : List Char := ['%', hexDigit (b / 16), hexDigit (b % 16)]

/-- UTF-8 encoding of one code point (quote escapes each byte separately). -/
def utf8Bytes (n : Nat) : List Nat :=
  if n < 128 then [n]
  else if n < 2048 then [192 + n / 64, 128 + n % 64]
  else if n < 65536 then [224 + n / 4096, 128 + (n / 64) % 64, 128 + n % 64]
  else [240 + n / 262144, 128 + (n / 4096) % 64, 128 + (n / 64) % 64, 128 + n % 64]

/-- Escaping of one character by `urllib.parse.quote` with `safe=''`. -/
def quoteChar (c : Char) : List Char :=
  if quoteSafeChar c then [c] else ((utf8Bytes c.toNat).map percentByte).flatten

/-- `urllib.parse.quote(s, safe='')`. -/
def pyQuote (s : String) : String := ⟨(s.data.map quoteChar).flatten⟩

/-- `"&".join(...)` used by `urllib.parse.urlencode`. -/
def joinAmp : List String → String
  | [] => ""
  | [x] => x
  | x :: y :: ys => x ++ "&" ++ joinAmp (y :: ys)

/-- `" OR ".join(skills)` building the keywords parameter. -/
def joinOr : List String → String
  | [] => ""
  | [x] => x
  | x :: y :: ys => x ++ " OR " ++ joinOr (y :: ys)

/-- `urllib.parse.urlencode(params, quote_via=quote)`: quote each key and
value and join `key=value` pairs with `&`, preserving insertion order. -/
def urlencode (ps : List (String × String)) : String :=
  joinAmp (ps.map (fun p => pyQuote p.1 ++ "=" ++ pyQuote p.2))

/-- `JobSearchRequest` dataclass of `linkedin_scraper.py` (post-init state). -/
structure JobSearchRequest where
  skills : List String
  location : String := ""
  experience_level : String := ""
  job_type : String := ""
  company : String := ""
  limit : Int := 10

/-- `JobSearchRequest.__post_init__`: raising `ValueError` on an empty skills
list is modelled as `Except.error`; otherwise each skill whose stripped value
is non-empty is kept, stripped (`[skill.strip() for skill in self.skills if
skill.strip()]`).  No other field is validated. -/
def JobSearchRequest.make (skills : List String)
    (location experience_level job_type company : String) (limit : Int) :
    Except String JobSearchRequest :=
  if skills.isEmpty then
    Except.error "At least one skill must be provided"
  else
    Except.ok
      { skills := skills.filterMap (fun sk =>
          if pyStrip sk ≠ "" then some (pyStrip sk) else none)
        location := location
        experience_level := experience_level
        job_type := job_type
        company := company
        limit := limit }

/-- The `experience_mapping` dict of `_build_search_url`. -/
def experienceMapping : List (String × String) :=
  [("internship", "1"), ("entry_level", "2"), ("associate", "3"),
   ("mid_senior", "4"), ("director", "5")]

/-- The `job_type_mapping` dict of `_build_search_url`. -/
def jobTypeMapping : List (String × String) :=
  [("full_time", "F"), ("part_time", "P"), ("contract", "C"),
   ("temporary", "T"), ("volunteer", "V")]

/-- Dict lookup (`key in mapping` / `mapping[key]` combined). -/
def lookupTable : List (String × String) → String → Option String
  | [], _ => none
  | p :: ps, k => if p.1 == k then some p.2 else lookupTable ps k

/-- The `params` dict built by `_build_search_url`, in insertion order:
keywords and location when truthy, mapped experience level and job type when
recognized, company when truthy, then always `f_TPR=r86400` and `start=0`. -/
def buildParams (r : JobSearchRequest) : List (String × String) :=
  (if r.skills.isEmpty then [] else [("keywords", joinOr r.skills)]) ++
  (if r.location == "" then [] else [("location", r.location)]) ++
  (match lookupTable experienceMapping r.experience_level with
   | some code => [("f_E", code)]
   | none => []) ++
  (match lookupTable jobTypeMapping r.job_type with
   | some code => [("f_JT", code)]
   | none => []) ++
  (if r.company == "" then [] else [("f_C", r.company)]) ++
  [("f_TPR", "r86400"), ("start", "0")]

/-- `self.base_url` of `linkedin_scraper.py`. -/
def baseJobsUrl : String := "https://www.linkedin.com/jobs/search"

/-- `LinkedInScraper._build_search_url`. -/
def build_search_url (r : JobSearchRequest) : String :=
  baseJobsUrl ++ "?" ++ urlencode (buildParams r)

/-! ### Job extraction and `search_jobs` (`linkedin_scraper.py`) -/

/-- `JobListing` dataclass (post-init: `None` list fields become `[]`). -/
structure JobListing where
  title : String
  company : String
  location : String
  description : String := ""
  requirements : List String := []
  salary_range : String := ""
  job_type : String := ""
  posted_date : String := ""
  linkedin_url : String := ""
  skills_matched : List String := []
  match_score : ℚ := 0

/-- The four pieces of one `base-card` element read by
`_extract_job_from_element`: `none` models a `find` that returned no element
(and, for the link, an anchor without an href attribute). -/
structure JobElement where
  title? : Option String := none
  subtitle? : Option String := none
  location? : Option String := none
  href? : Option String := none

/-- `element.get_text().strip() if element else "N/A"`. -/
def getOrNA (o : Option String) : String :=
  match o with
  | some t => pyStrip t
  | none => "N/A"

/-- `LinkedInScraper._extract_job_from_element`: title/company/location strip
to `"N/A"` when missing, the job URL is the raw href (or `""`), and the score
comes from `calculate_skill_match(search_skills, search_skills)`. -/
def extract_job_from_element (e : JobElement) (search_skills defaults : List String) :
    Option JobListing :=
  let sm := calculate_skill_match defaults search_skills (some search_skills)
  some
    { title := getOrNA e.title?
      company := getOrNA e.subtitle?
      location := getOrNA e.location?
      linkedin_url := (match e.href? with | some u => u | none => "")
      skills_matched := sm.2
      match_score := sm.1 }

/-- A fault raised by a collaborator call, as caught by `search_jobs`:
selenium's `WebDriverException` or any other `Exception`. -/
inductive PyFault where
  | webdriver (msg : String)
  | other (msg : String)

/-- Outcomes of the external browser collaborator during one `search_jobs`
call: whether `setup_driver` and `driver.get` raise, whether the
`WebDriverWait` finds the results list before its timeout, and the parsed
`base-card` containers of the loaded page. -/
structure BrowserEnv where
  setup : Option PyFault := none
  navigate : Option PyFault := none
  waitReady : Bool := true
  containers : List JobElement := []

/-- `JobSearchResponse` dataclass. -/
structure JobSearchResponse where
  success : Bool
  total_jobs_found : Nat
  jobs : List JobListing
  search_query : JobSearchRequest
  message : String := ""

/-- Message produced by the two `except` branches of `search_jobs`. -/
def faultMessage : PyFault → String
  | .webdriver m => "Web scraping error: " ++ m
  | .other m => "Unexpected error: " ++ m

/-- The failure envelope built on every error path of `search_jobs`. -/
def failResponse (req : JobSearchRequest) (msg : String) : JobSearchResponse :=
  { success := false, total_jobs_found := 0, jobs := [], search_query := req,
    message := msg }

/-- The container for-loop of `search_jobs`: break once `processed_count`
reaches the limit; a container the extractor rejects is skipped without
increasing `processed_count`. -/
def processContainers (skills defaults : List String) (limit : Int) :
    List JobElement → Nat → List JobListing
  | [], _ => []
  | c :: cs, count =>
    if limit ≤ (count : Int) then []
    else
      match extract_job_from_element c skills defaults with
      | some j => j :: processContainers skills defaults limit cs (count + 1)
      | none => processContainers skills defaults limit cs count

/-- `LinkedInScraper.search_jobs`.  The returned `Bool` records whether
`driver.quit()` ran: the `finally` block calls it whenever `setup_driver`
returned a driver, on success and failure paths alike. -/
def search_jobs (env : BrowserEnv) (defaults : List String) (req : JobSearchRequest) :
    JobSearchResponse × Bool :=
  match env.setup with
  | some f => (failResponse req (faultMessage f), false)
  | none =>
    match env.navigate with
    | some f => (failResponse req (faultMessage f), true)
    | none =>
      if env.waitReady then
        let jobs := processContainers req.skills defaults req.limit env.containers 0
        ({ success := true, total_jobs_found := jobs.length, jobs := jobs,
           search_query := req,
           message := "Successfully found " ++ toString jobs.length ++ " job listings" },
         true)
      else
        (failResponse req
          "Failed to load job listings - LinkedIn may be blocking requests", true)

/-! ### Profile extraction (`linkedin_scraper_final.py`, `linkedin_profile_scraper.py`) -/

/-- `ProfileData` dataclass of `linkedin_scraper_final.py`. -/
structure ProfileData where
  name : String
  headline : String := ""
  location : String := ""
  profile_url : String := ""
  current_company : String := ""
  experience : String := ""
  skills : List String := []
  skill_match_score : ℚ := 0
  required_skills_matched : List String := []
  total_skills_count : Nat := 0
  about : String := ""
  education : String := ""
  connections : String := ""
  raw_text : String := ""
  scraped_at : String := ""
  profile_summary : String := ""
  detailed_skills : String := ""

/-- One profile search-result card: the selector → element-text pairs the
card answers, the raw `card.text`, the card's own `href` attribute, and the
`href` of the first anchor inside it (`none` models a failed lookup). -/
structure Card where
  rawText : String := ""
  fields : List (String × String) := []
  href : Option String := none
  innerHref : Option String := none

/-- `card.find_element(By.CSS_SELECTOR, sel)` text, `none` when it raises. -/
def cardFind (card : Card) (sel : String) : Option String :=
  lookupTable card.fields sel

/-- `LinkedInScraper._extract_text_from_card`: the first selector whose
element text strips to something non-empty wins, else `""`. -/
def extract_text_from_card (card : Card) : List String → String
  | [] => ""
  | sel :: rest =>
    match cardFind card sel with
    | some txt =>
      if pyStrip txt ≠ "" then pyStrip txt else extract_text_from_card card rest
    | none => extract_text_from_card card rest

/-- Name selectors tried by `_extract_single_profile`. -/
def nameSelectors : List String :=
  ["span.name-and-icon", ".search-result__title", "h3", ".search-result__name",
   "[data-test-search-result-name]"]

/-- Headline selectors tried by `_extract_single_profile`. -/
def headlineSelectors : List String :=
  ["p.search-result__info", ".search-result__headline", ".search-result__subtitle",
   "p", ".search-result__description"]

/-- Location selectors tried by `_extract_single_profile`. -/
def locationSelectors : List String :=
  ["p.search-result__location", ".search-result__location", ".search-result__subtitle",
   "[data-test-search-result-location]"]

/-- Company selectors tried by `_extract_single_profile`. -/
def companySelectors : List String :=
  ["p.search-result__company", ".search-result__company", ".search-result__subtitle",
   "[data-test-search-result-company]"]

/-- Fuel-driven worker for Python `str.replace` (all occurrences, non-empty
needle); the fuel starts at the haystack length, which bounds the number of
steps since every step consumes at least one character. -/
def replaceFuel (needle repl : List Char) : Nat → List Char → List Char
  | 0, l => l
  | _ + 1, [] => []
  | fuel + 1, c :: cs =>
    if startsList needle (c :: cs) then
      repl ++ replaceFuel needle repl fuel (cs.drop (needle.length - 1))
    else c :: replaceFuel needle repl fuel cs

/-- Python `s.replace(needle, repl)` for a non-empty needle. -/
def pyReplace (s needle repl : String) : String :=
  ⟨replaceFuel needle.data repl.data s.data.length s.data⟩

/-- Fuel-driven worker for Python `str.split(sep)` with non-empty separator:
`acc` collects the current piece in reverse. -/
def splitFuel (sep : List Char) : Nat → List Char → List Char → List (List Char)
  | 0, acc, rest => [acc.reverse ++ rest]
  | _ + 1, acc, [] => [acc.reverse]
  | fuel + 1, acc, c :: cs =>
    if startsList sep (c :: cs) then
      acc.reverse :: splitFuel sep fuel [] (cs.drop (sep.length - 1))
    else splitFuel sep fuel (c :: acc) cs

/-- Python `s.split(sep)` with a non-empty separator. -/
def pySplit (s sep : String) : List String :=
  (splitFuel sep.data (s.data.length + 1) [] s.data).map (fun l => ⟨l⟩)

/-- The raw-text fallback of `_extract_single_profile`: scan the stripped
lines of `card.text`, skip lines starting with `View` or `Connect`, remove
`View profile`, and accept the first remainder longer than two characters. -/
def nameFromLines : List String → Option String
  | [] => none
  | l :: ls =>
    let line := pyStrip l
    if line ≠ "" && !(pyStartsWith line "View") && !(pyStartsWith line "Connect") then
      let cleaned := pyStrip (pyReplace line "View profile" "")
      if cleaned ≠ "" && cleaned.length > 2 then some cleaned else nameFromLines ls
    else nameFromLines ls

/-- The part of a character list before the first `'?'`: this is what
`url.split('?')[0]` evaluates to. -/
def takeUntilQ : List Char → List Char
  | [] => []
  | c :: cs => if c == '?' then [] else c :: takeUntilQ cs

/-- `url.split('?')[0]`. -/
def beforeQuery (u : String) : String := ⟨takeUntilQ u.data⟩

/-- `profile_url.split('?')[0] if '?' in profile_url else profile_url`
(the `miniProfileUrn` cleaning in `_extract_profile_url`). -/
def cleanMiniProfileUrl (u : String) : String :=
  if pyIn "?" u then beforeQuery u else u

/-- Second attempt of `_extract_profile_url`: the href of the first anchor
inside the card, cleaned when it points at a profile. -/
def extractProfileUrlInner (card : Card) : String :=
  match card.innerHref with
  | some u => if pyIn "/in/" u then cleanMiniProfileUrl u else ""
  | none => ""

/-- `LinkedInScraper._extract_profile_url` of `linkedin_scraper_final.py`. -/
def extract_profile_url (card : Card) : String :=
  match card.href with
  | some u => if pyIn "/in/" u then cleanMiniProfileUrl u else extractProfileUrlInner card
  | none => extractProfileUrlInner card

/-- Per-link URL handling in `LinkedInProfileScraper.search_profiles` of
`linkedin_profile_scraper.py`: absolutize when the href is relative, then
append `url.split('?')[0]`. -/
def profileScraperCleanUrl (u : String) : String :=
  beforeQuery (if pyStartsWith u "http" then u else "https://www.linkedin.com" ++ u)

/-- The URL-collection loop of `LinkedInProfileScraper.search_profiles`:
keep each container link whose href contains `/in/`, cleaned. -/
def collectProfileUrls (hrefs : List (Option String)) : List String :=
  hrefs.foldr (fun h acc =>
    match h with
    | some u => if pyIn "/in/" u then profileScraperCleanUrl u :: acc else acc
    | none => acc) []

/-- `LinkedInScraper._extract_single_profile` of `linkedin_scraper_final.py`.
`scraped_at` is a wall-clock timestamp in the source and is modelled as `""`. -/
def extract_single_profile (card : Card) (target_skills : List String) :
    Option ProfileData :=
  let name0 := extract_text_from_card card nameSelectors
  let name :=
    if name0 == "" then (nameFromLines (pySplit card.rawText "\n")).getD "" else name0
  if name == "" then none
  else
    let headline := extract_text_from_card card headlineSelectors
    let location := extract_text_from_card card locationSelectors
    let profile_url := extract_profile_url card
    let company := extract_text_from_card card companySelectors
    let sm := calculate_skill_match_final [name, headline, company] target_skills
    some
      { name := name
        headline := if headline == "" then "N/A" else headline
        location := if location == "" then "N/A" else location
        profile_url := if profile_url == "" then "N/A" else profile_url
        current_company := if company == "" then "N/A" else company
        skills := []
        skill_match_score := sm.1
        required_skills_matched := sm.2
        raw_text := card.rawText
        scraped_at := "" }

/-- The dict returned by `extract_detailed_profile`; the `headline` key is
present only when one of the headline strategies succeeded, hence `Option`.
The extraction drives the external browser session, so the collaborator's
output is a parameter of the loop below. -/
structure DetailInfo where
  about : String := ""
  experience : String := ""
  education : String := ""
  skills : String := ""
  connections : String := ""
  profile_summary : String := ""
  headline : Option String := none

/-- The field updates `_extract_profiles_from_search_results` applies to an
accepted profile after calling `extract_detailed_profile`; the matching
fields are recomputed only when the detailed skills are available. -/
def enrichProfile (target_skills : List String) (d : DetailInfo) (p : ProfileData) :
    ProfileData :=
  let p1 := { p with
    headline := d.headline.getD "N/A"
    about := d.about
    experience := d.experience
    education := d.education
    connections := d.connections
    profile_summary := d.profile_summary
    detailed_skills := d.skills }
  if d.skills ≠ "Not available" then
    let skills_list := (pySplit d.skills ",").map pyStrip
    let sm := calculate_skill_match_final skills_list target_skills
    { p1 with
      skill_match_score := sm.1
      required_skills_matched := sm.2
      total_skills_count := skills_list.length }
  else p1

/-- The card for-loop of `_extract_profiles_from_search_results`: rejected
cards contribute nothing, and the detail lookup runs for every accepted
profile whose URL is truthy and not `"N/A"`.  The `Nat` counts
`extract_detailed_profile` invocations. -/
def profilesLoop (detail : String → DetailInfo) (target_skills : List String) :
    List Card → List ProfileData × Nat
  | [] => ([], 0)
  | card :: cards =>
    let rest := profilesLoop detail target_skills cards
    match extract_single_profile card target_skills with
    | some p =>
      if p.profile_url ≠ "" ∧ p.profile_url ≠ "N/A" then
        (enrichProfile target_skills (detail p.profile_url) p :: rest.1, rest.2 + 1)
      else (p :: rest.1, rest.2)
    | none => rest

/-- Python list slicing `l[:n]` (a negative bound counts from the end). -/
def pySlice {α : Type} (n : Int) (l : List α) : List α :=
  if 0 ≤ n then l.take n.toNat else l.take ((l.length : Int) + n).toNat

/-- `LinkedInScraper._extract_profiles_from_search_results` of
`linkedin_scraper_final.py`, iterating over `profile_cards[:limit]` with the
detail-lookup collaborator as a parameter. -/
def extract_profiles_from_search_results (detail : String → DetailInfo)
    (cards : List Card) (target_skills : List String) (limit : Int) :
    List ProfileData × Nat :=
  profilesLoop detail target_skills (pySlice limit cards)


/-! ### Helper lemmas -/

theorem startsList_iff (n : List Char) :
    ∀ h : List Char, startsList n h = true ↔ n <+: h := by
  induction n with
  | nil => intro h; simp [startsList]
  | cons a as ih =>
    intro h
    cases h with
    | nil => simp [startsList]
    | cons b bs =>
      simp only [startsList, Bool.and_eq_true, beq_iff_eq, ih bs,
        List.cons_prefix_cons]

theorem occursIn_iff (n : List Char) :
    ∀ h : List Char, occursIn n h = true ↔ n <:+: h := by
  intro h
  induction h with
  | nil => simp [occursIn, startsList_iff, List.infix_nil, List.prefix_nil]
  | cons c cs ih =>
    simp only [occursIn, Bool.or_eq_true, startsList_iff, ih, List.infix_cons_iff]

theorem pyIn_iff (sub s : String) : pyIn sub s = true ↔ sub.data <:+: s.data := by
  rw [pyIn, occursIn_iff]

theorem startsList_self (l : List Char) : startsList l l = true := by
  induction l with
  | nil => rfl
  | cons a as ih => simp [startsList, ih]

theorem occursIn_self (l : List Char) : occursIn l l = true := by
  cases l with
  | nil => rfl
  | cons c cs => simp [occursIn, startsList_self]

theorem pyIn_self (s : String) : pyIn s s = true := occursIn_self s.data

theorem innerScan_iff (t : String) (pl : List String) :
    innerScan t pl = true ↔ ∃ p ∈ pl, (pyIn t p || pyIn p t) = true := by
  induction pl with
  | nil => simp [innerScan]
  | cons p ps ih =>
    simp only [innerScan]
    by_cases h : (pyIn t p || pyIn p t) = true
    · rw [if_pos h]
      constructor
      · intro _
        exact ⟨p, List.mem_cons_self p ps, h⟩
      · intro _
        rfl
    · rw [if_neg h, ih]
      constructor
      · rintro ⟨q, hq, hqq⟩
        exact ⟨q, List.mem_cons_of_mem p hq, hqq⟩
      · rintro ⟨q, hq, hqq⟩
        rcases List.mem_cons.mp hq with he | hm
        · subst he
          exact absurd hqq h
        · exact ⟨q, hm, hqq⟩

theorem innerScan_of_mem {t : String} {pl : List String} (h : t ∈ pl) :
    innerScan t pl = true :=
  (innerScan_iff t pl).mpr ⟨t, h, by simp [pyIn_self]⟩

theorem foldl_match_eq (pl : List String) :
    ∀ (tl acc : List String),
      tl.foldl (fun acc t => if innerScan t pl then acc ++ [t] else acc) acc
        = acc ++ tl.filter (fun t => innerScan t pl) := by
  intro tl
  induction tl with
  | nil => intro acc; simp
  | cons t ts ih =>
    intro acc
    simp only [List.foldl_cons, List.filter_cons]
    by_cases h : innerScan t pl
    · rw [if_pos h, ih]; simp [h, List.append_assoc]
    · rw [if_neg h, ih]; simp [h]

theorem matchLoop_eq_filter (pl tl : List String) :
    matchLoop pl tl = tl.filter (fun t => innerScan t pl) := by
  rw [matchLoop, foldl_match_eq]; simp

theorem skillMatchBody_matched (profile target : List String) :
    (skillMatchBody profile target).2
      = (target.map pyNorm).filter (fun t => innerScan t (profile.map pyNorm)) := by
  simp [skillMatchBody, matchLoop_eq_filter]

theorem skillMatchBody_score (profile target : List String) (h : target ≠ []) :
    (skillMatchBody profile target).1
      = ((skillMatchBody profile target).2.length : ℚ) / (target.length : ℚ) * 100 := by
  simp [skillMatchBody, List.isEmpty_iff, h]

theorem calcFinal_matched (profile target : List String) :
    (calculate_skill_match_final profile target).2
      = (target.map pyNorm).filter (fun t => innerScan t (profile.map pyNorm)) := by
  rw [calculate_skill_match_final]
  by_cases ht : target = []
  · subst ht; simp
  · by_cases hp : profile = []
    · subst hp; simp [List.isEmpty_iff, ht, innerScan]
    · simp [List.isEmpty_iff, ht, hp, skillMatchBody_matched]

theorem calcFinal_score (profile target : List String) :
    (calculate_skill_match_final profile target).1
      = ((calculate_skill_match_final profile target).2.length : ℚ)
          / (target.length : ℚ) * 100 := by
  rw [calculate_skill_match_final]
  by_cases ht : target = []
  · subst ht; simp
  · by_cases hp : profile = []
    · subst hp; simp [List.isEmpty_iff, ht]
    · simp [List.isEmpty_iff, ht, hp, skillMatchBody_score profile target ht]

theorem calc_v1_some (defaults profile target : List String) (h : target ≠ []) :
    calculate_skill_match defaults profile (some target)
      = calculate_skill_match_final profile target := by
  rw [calculate_skill_match, calculate_skill_match_final]
  by_cases hp : profile = []
  · subst hp; simp [List.isEmpty_iff, h]
  · simp [List.isEmpty_iff, h, hp]

theorem calc_v1_empty_profile (defaults : List String) (targets : Option (List String)) :
    calculate_skill_match defaults [] targets = (0, []) := by
  simp [calculate_skill_match]

theorem calc_v1_empty_target_eq_none (defaults profile : List String) :
    calculate_skill_match defaults profile (some [])
      = calculate_skill_match defaults profile none := rfl

theorem calc_v1_default (defaults profile : List String) (hp : profile ≠ []) :
    calculate_skill_match defaults profile (some []) = skillMatchBody profile defaults := by
  simp [calculate_skill_match, List.isEmpty_iff, hp]

theorem processContainers_eq (skills defaults : List String) (limit : Int) :
    ∀ (cs : List JobElement) (count : Nat),
      processContainers skills defaults limit cs count
        = (cs.filterMap (fun c => extract_job_from_element c skills defaults)).take
            (limit - (count : Int)).toNat := by
  intro cs
  induction cs with
  | nil => intro count; simp [processContainers]
  | cons c cs ih =>
    intro count
    rw [processContainers]
    by_cases h : limit ≤ (count : Int)
    · rw [if_pos h]
      have hz : (limit - (count : Int)).toNat = 0 := by omega
      simp [hz]
    · rw [if_neg h]
      cases hx : extract_job_from_element c skills defaults with
      | some j =>
        rw [ih (count + 1)]
        rw [List.filterMap_cons]
        rw [hx]
        have h1 : (limit - (count : Int)).toNat
            = (limit - ((count : Nat) + 1 : Nat)).toNat + 1 := by
          push_cast
          omega
        rw [h1, List.take_succ_cons]
      | none =>
        rw [ih count, List.filterMap_cons, hx]

theorem profilesLoop_le (detail : String → DetailInfo) (ts : List String) :
    ∀ cards : List Card,
      (profilesLoop detail ts cards).1.length ≤ cards.length ∧
      (profilesLoop detail ts cards).2 ≤ cards.length := by
  intro cards
  induction cards with
  | nil => simp [profilesLoop]
  | cons card cards ih =>
    rw [profilesLoop]
    cases hx : extract_single_profile card ts with
    | none =>
      simp only [List.length_cons]
      exact ⟨ih.1.trans (Nat.le_succ _), ih.2.trans (Nat.le_succ _)⟩
    | some p =>
      by_cases hu : p.profile_url ≠ "" ∧ p.profile_url ≠ "N/A"
      · simp only [if_pos hu, List.length_cons]
        exact ⟨Nat.succ_le_succ ih.1, Nat.succ_le_succ ih.2⟩
      · simp only [if_neg hu, List.length_cons]
        exact ⟨Nat.succ_le_succ ih.1, ih.2.trans (Nat.le_succ _)⟩

theorem joinAmp_cons (x : String) (ys : List String) (h : ys ≠ []) :
    joinAmp (x :: ys) = x ++ "&" ++ joinAmp ys := by
  cases ys with
  | nil => exact absurd rfl h
  | cons y ys => rfl

theorem joinAmp_last_two (a b : String) :
    ∀ xs : List String, ∃ p : List Char,
      (joinAmp (xs ++ [a, b])).data = p ++ (a.data ++ '&' :: b.data) := by
  intro xs
  induction xs with
  | nil =>
    refine ⟨[], ?_⟩
    have h1 : joinAmp ([] ++ [a, b]) = a ++ "&" ++ b := rfl
    rw [h1]
    have hamp : ("&" : String).data = ['&'] := rfl
    simp [String.data_append, hamp]
  | cons x xs ih =>
    obtain ⟨p, hp⟩ := ih
    refine ⟨x.data ++ '&' :: p, ?_⟩
    have hne : xs ++ [a, b] ≠ [] := by simp
    rw [List.cons_append, joinAmp_cons x (xs ++ [a, b]) hne]
    have hamp : ("&" : String).data = ['&'] := rfl
    simp [String.data_append, hamp, hp, List.append_assoc]

theorem buildParams_suffix (r : JobSearchRequest) :
    ∃ front : List (String × String),
      buildParams r = front ++ [("f_TPR", "r86400"), ("start", "0")] := by
  refine ⟨(if r.skills.isEmpty then [] else [("keywords", joinOr r.skills)]) ++
    (if r.location == "" then [] else [("location", r.location)]) ++
    (match lookupTable experienceMapping r.experience_level with
     | some code => [("f_E", code)]
     | none => []) ++
    (match lookupTable jobTypeMapping r.job_type with
     | some code => [("f_JT", code)]
     | none => []) ++
    (if r.company == "" then [] else [("f_C", r.company)]), ?_⟩
  simp [buildParams, List.append_assoc]

theorem pyIn_of_decomp (sub s : String) (pre suf : List Char)
    (h : s.data = pre ++ sub.data ++ suf) : pyIn sub s = true := by
  rw [pyIn_iff]
  exact ⟨pre, suf, h.symm⟩

theorem qmark_not_mem_takeUntilQ : ∀ l : List Char, '?' ∉ takeUntilQ l := by
  intro l
  induction l with
  | nil => simp [takeUntilQ]
  | cons c cs ih =>
    rw [takeUntilQ]
    by_cases h : (c == '?') = true
    · rw [if_pos h]
      simp
    · rw [if_neg h]
      simp only [List.mem_cons]
      rintro (hc | hc)
      · exact h (by simp [hc.symm])
      · exact ih hc

theorem pyIn_qmark_false (u : String) (h : '?' ∉ u.data) :
    pyIn "?" u = false := by
  by_contra hb
  have ht : pyIn "?" u = true := by
    revert hb
    cases pyIn "?" u <;> simp
  rw [pyIn_iff] at ht
  exact h (ht.subset (by decide))

theorem cleanMiniProfileUrl_no_query (u : String) :
    pyIn "?" (cleanMiniProfileUrl u) = false := by
  rw [cleanMiniProfileUrl]
  by_cases h : pyIn "?" u
  · rw [if_pos h]
    exact pyIn_qmark_false _ (qmark_not_mem_takeUntilQ u.data)
  · rw [if_neg h]
    revert h
    cases pyIn "?" u <;> simp

theorem extract_profile_url_no_query (card : Card) :
    pyIn "?" (extract_profile_url card) = false := by
  have hempty : pyIn "?" "" = false := rfl
  have hinner : pyIn "?" (extractProfileUrlInner card) = false := by
    rw [extractProfileUrlInner]
    cases card.innerHref with
    | none => exact hempty
    | some u =>
      by_cases h : pyIn "/in/" u
      · simp [h, cleanMiniProfileUrl_no_query]
      · simp [h, hempty]
  rw [extract_profile_url]
  cases card.href with
  | none => exact hinner
  | some u =>
    by_cases h : pyIn "/in/" u
    · simp [h, cleanMiniProfileUrl_no_query]
    · simp [h, hinner]

theorem profileScraperCleanUrl_no_query (u : String) :
    pyIn "?" (profileScraperCleanUrl u) = false :=
  pyIn_qmark_false _ (qmark_not_mem_takeUntilQ _)

theorem collectProfileUrls_no_query (hrefs : List (Option String)) :
    (collectProfileUrls hrefs).all (fun u => !(pyIn "?" u)) = true := by
  induction hrefs with
  | nil => rfl
  | cons h hs ih =>
    rw [collectProfileUrls, List.foldr_cons]
    cases h with
    | none => exact ih
    | some u =>
      by_cases hin : pyIn "/in/" u
      · simp only [hin, if_true, List.all_cons, Bool.and_eq_true]
        refine ⟨?_, ih⟩
        simp [profileScraperCleanUrl_no_query]
      · simp only [hin, Bool.false_eq_true, if_false]
        exact ih

theorem nameFromLines_some_ne : ∀ (ls : List String) (s : String),
    nameFromLines ls = some s → s ≠ "" := by
  intro ls
  induction ls with
  | nil => intro s h; cases h
  | cons l ls ih =>
    intro s h
    rw [nameFromLines] at h
    by_cases h1 : (decide (pyStrip l ≠ "") && !pyStartsWith (pyStrip l) "View"
        && !pyStartsWith (pyStrip l) "Connect") = true
    · rw [if_pos h1] at h
      have h' : (if (decide (pyStrip (pyReplace (pyStrip l) "View profile" "") ≠ "")
            && decide ((pyStrip (pyReplace (pyStrip l) "View profile" "")).length > 2)) = true
          then some (pyStrip (pyReplace (pyStrip l) "View profile" ""))
          else nameFromLines ls) = some s := h
      by_cases h2 : (decide (pyStrip (pyReplace (pyStrip l) "View profile" "") ≠ "")
          && decide ((pyStrip (pyReplace (pyStrip l) "View profile" "")).length > 2)) = true
      · rw [if_pos h2] at h'
        cases h'
        simp only [Bool.and_eq_true, decide_eq_true_eq] at h2
        exact h2.1
      · rw [if_neg h2] at h'
        exact ih s h'
    · rw [if_neg h1] at h
      exact ih s h

theorem extract_single_profile_none_iff (card : Card) (ts : List String) :
    extract_single_profile card ts = none ↔
      (extract_text_from_card card nameSelectors = "" ∧
       nameFromLines (pySplit card.rawText "\n") = none) := by
  simp only [extract_single_profile]
  by_cases h0 : extract_text_from_card card nameSelectors = ""
  · simp only [h0, beq_self_eq_true, if_true]
    cases hf : nameFromLines (pySplit card.rawText "\n") with
    | none => simp [hf, h0]
    | some s =>
      have hs := nameFromLines_some_ne _ _ hf
      simp [hf, h0, hs]
  · simp [h0]

theorem append_ne_empty (s t : String) (h : s.length ≠ 0) : s ++ t ≠ "" := by
  intro hc
  apply h
  have hl := congrArg String.length hc
  rw [String.length_append] at hl
  have h0 : ("" : String).length = 0 := rfl
  rw [h0] at hl
  omega

theorem faultMessage_ne (f : PyFault) : faultMessage f ≠ "" := by
  cases f with
  | webdriver m => exact append_ne_empty _ _ (by decide)
  | other m => exact append_ne_empty _ _ (by decide)

theorem buildParams_keys (r : JobSearchRequest) (kv : String × String)
    (h : kv ∈ buildParams r) :
    kv.1 = "keywords" ∨ kv.1 = "location" ∨
    (kv.1 = "f_E" ∧ lookupTable experienceMapping r.experience_level = some kv.2) ∨
    (kv.1 = "f_JT" ∧ lookupTable jobTypeMapping r.job_type = some kv.2) ∨
    kv.1 = "f_C" ∨ kv.1 = "f_TPR" ∨ kv.1 = "start" := by
  rw [buildParams] at h
  simp only [List.mem_append] at h
  rcases h with ((((h | h) | h) | h) | h) | h
  · split at h
    · simp at h
    · simp at h
      subst h
      exact Or.inl rfl
  · split at h
    · simp at h
    · simp at h
      subst h
      exact Or.inr (Or.inl rfl)
  · split at h
    next code heq =>
      simp at h
      subst h
      exact Or.inr (Or.inr (Or.inl ⟨rfl, heq⟩))
    next heq => simp at h
  · split at h
    next code heq =>
      simp at h
      subst h
      exact Or.inr (Or.inr (Or.inr (Or.inl ⟨rfl, heq⟩)))
    next heq => simp at h
  · split at h
    · simp at h
    · simp at h
      subst h
      exact Or.inr (Or.inr (Or.inr (Or.inr (Or.inl rfl))))
  · rcases List.mem_cons.mp h with h | h
    · subst h
      exact Or.inr (Or.inr (Or.inr (Or.inr (Or.inr (Or.inl rfl)))))
    · rcases List.mem_cons.mp h with h | h
      · subst h
        exact Or.inr (Or.inr (Or.inr (Or.inr (Or.inr (Or.inr rfl)))))
      · simp at h

/-! ### Claim theorems -/

/-- Claim C1: with both lists normalized by trimming and case-folding, the
scorer marks a target skill as matched iff some observed skill contains it or
it contains that observed skill; each target occurrence is appended at most
once (the matched list is exactly the filtered normalized target list); the
score is (matched targets / target count) × 100; the scorer of
`linkedin_scraper.py` agrees whenever a non-empty target list is passed; and
score(["Oracle SQL"], ["SQL"]) = 100 and score(["SQL"], ["Oracle SQL"]) = 100
in both implementations. -/
theorem C1_skill_scorer_containment :
    (∀ profile target : List String,
      (calculate_skill_match_final profile target).2
        = (target.map pyNorm).filter (fun t => innerScan t (profile.map pyNorm))) ∧
    (∀ (profile target : List String) (t : String),
      t ∈ (calculate_skill_match_final profile target).2 ↔
        t ∈ target.map pyNorm ∧
          ∃ p ∈ profile.map pyNorm, (pyIn t p || pyIn p t) = true) ∧
    (∀ profile target : List String,
      (calculate_skill_match_final profile target).1
        = ((calculate_skill_match_final profile target).2.length : ℚ)
            / (target.length : ℚ) * 100) ∧
    (∀ defaults profile target : List String, target ≠ [] →
      calculate_skill_match defaults profile (some target)
        = calculate_skill_match_final profile target) ∧
    (calculate_skill_match_final ["Oracle SQL"] ["SQL"]).1 = 100 ∧
    (calculate_skill_match_final ["SQL"] ["Oracle SQL"]).1 = 100 ∧
    (calculate_skill_match defaultTargetSkills ["Oracle SQL"] (some ["SQL"])).1 = 100 ∧
    (calculate_skill_match defaultTargetSkills ["SQL"] (some ["Oracle SQL"])).1 = 100 := by
  have hmem : ∀ (profile target : List String) (t : String),
      t ∈ (calculate_skill_match_final profile target).2 ↔
        t ∈ target.map pyNorm ∧
          ∃ p ∈ profile.map pyNorm, (pyIn t p || pyIn p t) = true := by
    intro profile target t
    rw [calcFinal_matched, List.mem_filter, innerScan_iff]
  have hex1 : (calculate_skill_match_final ["Oracle SQL"] ["SQL"]).1 = 100 := by
    rw [calcFinal_score]
    have h2 : (calculate_skill_match_final ["Oracle SQL"] ["SQL"]).2 = ["sql"] := by decide
    rw [h2]
    norm_num
  have hex2 : (calculate_skill_match_final ["SQL"] ["Oracle SQL"]).1 = 100 := by
    rw [calcFinal_score]
    have h2 : (calculate_skill_match_final ["SQL"] ["Oracle SQL"]).2 = ["oracle sql"] := by
      decide
    rw [h2]
    norm_num
  refine ⟨fun p t => calcFinal_matched p t, hmem, fun p t => calcFinal_score p t,
    fun d p t ht => calc_v1_some d p t ht, hex1, hex2, ?_, ?_⟩
  · rw [calc_v1_some _ _ _ (by simp)]
    exact hex1
  · rw [calc_v1_some _ _ _ (by simp)]
    exact hex2

/-- Witness for C1: the agreement between the two scorers applied at a
concrete non-empty target list. -/
theorem C1_skill_scorer_containment_witness :
    (["SQL"] : List String) ≠ [] ∧
    calculate_skill_match defaultTargetSkills ["Oracle SQL"] (some ["SQL"])
      = calculate_skill_match_final ["Oracle SQL"] ["SQL"] :=
  ⟨by simp,
   C1_skill_scorer_containment.2.2.2.1 defaultTargetSkills ["Oracle SQL"] ["SQL"] (by simp)⟩

/-- Counterexample to C2: in `linkedin_scraper.py` an explicitly empty target
list is replaced by the default target-skill list, so the score for observed
`["Python"]` and target `[]` is 4 with matched list `["python"]`, not 0 with
an empty matched list. -/
theorem C2_empty_target_counterexample :
    (calculate_skill_match defaultTargetSkills ["Python"] (some [])).1 = 4 ∧
    (calculate_skill_match defaultTargetSkills ["Python"] (some [])).2 = ["python"] := by
  constructor
  · rw [calc_v1_default defaultTargetSkills ["Python"] (by simp),
      skillMatchBody_score _ _ (by simp [defaultTargetSkills])]
    have h2 : (skillMatchBody ["Python"] defaultTargetSkills).2 = ["python"] := by decide
    rw [h2]
    have hl : ((defaultTargetSkills.length : ℚ)) = 25 := by
      norm_num [defaultTargetSkills]
    rw [hl]
    norm_num
  · decide

/-- Claim C2 (amended): an empty observed list yields score 0 and an empty
matched list in both scorers; an empty target list yields (0, []) in the
final scraper's scorer, but in `linkedin_scraper.py` an empty target list is
treated exactly like passing no target list at all — it is replaced by the
scraper's default target skills (so the score can be non-zero, see the
counterexample). -/
theorem C2_empty_lists_amended :
    (∀ (defaults : List String) (targets : Option (List String)),
      calculate_skill_match defaults [] targets = (0, [])) ∧
    (∀ target : List String, calculate_skill_match_final [] target = (0, [])) ∧
    (∀ profile : List String, calculate_skill_match_final profile [] = (0, [])) ∧
    (∀ defaults profile : List String,
      calculate_skill_match defaults profile (some [])
        = calculate_skill_match defaults profile none) := by
  refine ⟨calc_v1_empty_profile, ?_, ?_, fun d p => calc_v1_empty_target_eq_none d p⟩
  · intro t
    simp [calculate_skill_match_final]
  · intro p
    simp [calculate_skill_match_final]

/-- Claim C9: the job extractor scores the caller's skills against
themselves, so for any non-empty caller skill list every converted record
carries match_score 100 and the trimmed, lower-cased caller skills as its
matched list, independent of the card's content. -/
theorem C9_job_extractor_self_match :
    ∀ (e : JobElement) (skills defaults : List String), skills ≠ [] →
      (extract_job_from_element e skills defaults).map
          (fun j => (j.match_score, j.skills_matched))
        = some (100, skills.map pyNorm) := by
  intro e skills defaults h
  have hm : (calculate_skill_match_final skills skills).2 = skills.map pyNorm := by
    rw [calcFinal_matched]
    apply List.filter_eq_self.mpr
    intro t ht
    exact innerScan_of_mem ht
  have hs : (calculate_skill_match_final skills skills).1 = 100 := by
    rw [calcFinal_score, hm, List.length_map]
    have hn : (skills.length : ℚ) ≠ 0 := by
      exact_mod_cast fun hc => h (List.length_eq_zero.mp hc)
    rw [div_self hn]
    norm_num
  rw [extract_job_from_element]
  simp only [Option.map_some']
  rw [calc_v1_some _ _ _ h, hs, hm]

/-- Witness for C9: the extractor applied to an empty card with caller skills
`["Python"]`. -/
theorem C9_job_extractor_self_match_witness :
    (["Python"] : List String) ≠ [] ∧
    (extract_job_from_element {} ["Python"] defaultTargetSkills).map
        (fun j => (j.match_score, j.skills_matched))
      = some (100, (["Python"] : List String).map pyNorm) :=
  ⟨by simp, C9_job_extractor_self_match {} ["Python"] defaultTargetSkills (by simp)⟩

/-- Claim C3: every compiled query string contains the fixed recency
parameter `f_TPR=r86400` and the pagination parameter `start=0`; and the
specific request {skills: ["Python","Django"], location: "New York, NY",
experience_level: "mid_senior", job_type: "full_time", limit: 5} compiles to
a query containing `keywords=Python%20OR%20Django`,
`location=New%20York%2C%20NY`, `f_E=4`, `f_JT=F`, `f_TPR=r86400` and
`start=0`. -/
theorem C3_query_compiler_fixed_params :
    (∀ r : JobSearchRequest,
      pyIn "f_TPR=r86400" (build_search_url r) = true ∧
      pyIn "start=0" (build_search_url r) = true) ∧
    build_search_url { skills := ["Python", "Django"], location := "New York, NY", experience_level := "mid_senior", job_type := "full_time", limit := 5 } = "https://www.linkedin.com/jobs/search?keywords=Python%20OR%20Django&location=New%20York%2C%20NY&f_E=4&f_JT=F&f_TPR=r86400&start=0" ∧
    pyIn "keywords=Python%20OR%20Django"
      "https://www.linkedin.com/jobs/search?keywords=Python%20OR%20Django&location=New%20York%2C%20NY&f_E=4&f_JT=F&f_TPR=r86400&start=0" = true ∧
    pyIn "location=New%20York%2C%20NY"
      "https://www.linkedin.com/jobs/search?keywords=Python%20OR%20Django&location=New%20York%2C%20NY&f_E=4&f_JT=F&f_TPR=r86400&start=0" = true ∧
    pyIn "f_E=4"
      "https://www.linkedin.com/jobs/search?keywords=Python%20OR%20Django&location=New%20York%2C%20NY&f_E=4&f_JT=F&f_TPR=r86400&start=0" = true ∧
    pyIn "f_JT=F"
      "https://www.linkedin.com/jobs/search?keywords=Python%20OR%20Django&location=New%20York%2C%20NY&f_E=4&f_JT=F&f_TPR=r86400&start=0" = true ∧
    pyIn "f_TPR=r86400"
      "https://www.linkedin.com/jobs/search?keywords=Python%20OR%20Django&location=New%20York%2C%20NY&f_E=4&f_JT=F&f_TPR=r86400&start=0" = true ∧
    pyIn "start=0"
      "https://www.linkedin.com/jobs/search?keywords=Python%20OR%20Django&location=New%20York%2C%20NY&f_E=4&f_JT=F&f_TPR=r86400&start=0" = true := by
  refine ⟨?_, by decide, by decide, by decide, by decide, by decide, by decide, by decide⟩
  intro r
  obtain ⟨front, hfront⟩ := buildParams_suffix r
  have hurl : build_search_url r
      = baseJobsUrl ++ "?" ++ joinAmp
          ((front.map (fun p => pyQuote p.1 ++ "=" ++ pyQuote p.2))
            ++ ["f_TPR=r86400", "start=0"]) := by
    rw [build_search_url, urlencode, hfront, List.map_append]
    rfl
  obtain ⟨p, hp⟩ := joinAmp_last_two "f_TPR=r86400" "start=0"
    (front.map (fun p => pyQuote p.1 ++ "=" ++ pyQuote p.2))
  constructor
  · apply pyIn_of_decomp _ _ (baseJobsUrl.data ++ "?".data ++ p)
      ('&' :: ("start=0" : String).data)
    rw [hurl]
    simp only [String.data_append, hp]
    simp [List.append_assoc]
  · apply pyIn_of_decomp _ _
      (baseJobsUrl.data ++ "?".data ++ p ++ ("f_TPR=r86400" : String).data ++ ['&']) []
    rw [hurl]
    simp only [String.data_append, hp]
    simp [List.append_assoc]

/-- Counterexample to C4: in `linkedin_scraper_final.py` the detail lookup is
invoked for every accepted profile with a usable URL, not for a constant
prefix of 3: four cards that each resolve a name and a profile URL with
limit 4 trigger four `extract_detailed_profile` calls. -/
theorem C4_enrichment_counterexample :
    (extract_profiles_from_search_results (fun _ => { skills := "Not available" })
        (List.replicate 4 { rawText := "", fields := [("h3", "Dev One")], href := some "https://www.linkedin.com/in/devone", innerHref := none })
        ["Python"] 4).2 = 4 ∧ ¬((4 : Nat) ≤ 3) :=
  ⟨rfl, by decide⟩

/-- Claim C4 (amended): both assemblers return at most `limit` records
(`search_jobs` never exceeds `limit.toNat` and the final scraper processes
only `profile_cards[:limit]`), and the detail lookup of the final scraper is
invoked at most once per processed card — i.e. at most `limit` times for a
non-negative limit — rather than at most 3 times. -/
theorem C4_limit_bounds_amended :
    (∀ (env : BrowserEnv) (defaults : List String) (req : JobSearchRequest),
      (search_jobs env defaults req).1.jobs.length ≤ req.limit.toNat) ∧
    (∀ (detail : String → DetailInfo) (cards : List Card) (ts : List String)
        (lim : Int),
      (extract_profiles_from_search_results detail cards ts lim).1.length
          ≤ (pySlice lim cards).length ∧
      (extract_profiles_from_search_results detail cards ts lim).2
          ≤ (pySlice lim cards).length) ∧
    (∀ (lim : Int) (cards : List Card), 0 ≤ lim →
      (pySlice lim cards).length ≤ lim.toNat) := by
  refine ⟨?_, ?_, ?_⟩
  · intro env defaults req
    rw [search_jobs]
    cases env.setup with
    | some f => simp [failResponse]
    | none =>
      cases env.navigate with
      | some f => simp [failResponse]
      | none =>
        by_cases hw : env.waitReady
        · simp only [hw, if_true]
          rw [processContainers_eq]
          simp
        · simp [hw, failResponse]
  · intro detail cards ts lim
    exact profilesLoop_le detail ts (pySlice lim cards)
  · intro lim cards h
    rw [pySlice, if_pos h]
    exact List.length_take_le _ _

/-- Witness for C4: the slice bound applied at limit 2 and an empty card
list. -/
theorem C4_limit_bounds_amended_witness :
    (0 : Int) ≤ 2 ∧ (pySlice 2 ([] : List Card)).length ≤ (2 : Int).toNat :=
  ⟨by decide, C4_limit_bounds_amended.2.2 2 [] (by decide)⟩

/-- Counterexample to C5: the job record builder of `linkedin_scraper.py`
does not reject an element with no resolvable title — it defaults the title
to `"N/A"` and the record is accepted, appearing in the result list and
counting toward the limit. -/
theorem C5_missing_title_counterexample :
    (extract_job_from_element {} ["Python"] defaultTargetSkills).map (fun j => j.title)
      = some "N/A" ∧
    (processContainers ["Python"] defaultTargetSkills 5 [{}] 0).length = 1 :=
  ⟨rfl, rfl⟩

/-- Claim C5 (amended): the profile record builder of
`linkedin_scraper_final.py` returns none exactly when no name can be resolved
(neither through the name selectors nor the raw-text fallback); the job
record builder of `linkedin_scraper.py` never rejects — a missing title
degrades to the `"N/A"` sentinel like every other field; and in the
`search_jobs` loop rejected candidates are skipped without counting toward
the limit (the result is the prefix, bounded by the remaining limit, of the
successfully extracted records). -/
theorem C5_identity_field_amended :
    (∀ (card : Card) (ts : List String),
      extract_single_profile card ts = none ↔
        (extract_text_from_card card nameSelectors = "" ∧
         nameFromLines (pySplit card.rawText "\n") = none)) ∧
    (∀ (e : JobElement) (skills defaults : List String),
      (extract_job_from_element e skills defaults).isSome = true) ∧
    (∀ (e : JobElement) (skills defaults : List String),
      (extract_job_from_element e skills defaults).map (fun j => j.title)
        = some (getOrNA e.title?)) ∧
    (∀ (skills defaults : List String) (limit : Int) (cs : List JobElement)
        (count : Nat),
      processContainers skills defaults limit cs count
        = (cs.filterMap (fun c => extract_job_from_element c skills defaults)).take
            (limit - (count : Int)).toNat) :=
  ⟨extract_single_profile_none_iff, fun _ _ _ => rfl, fun _ _ _ => rfl,
   fun sk d lim cs count => processContainers_eq sk d lim cs count⟩

/-- Counterexample to C6: a skills list containing only blanks passes
construction (only the empty list raises), leaving a request with no skill at
all; the out-of-enumeration experience level "senior" and the out-of-bounds
limit 999 are accepted unchanged. -/
theorem C6_validation_counterexample :
    JobSearchRequest.make ["   "] "" "senior" "" "" 999
      = Except.ok { skills := [], location := "", experience_level := "senior", job_type := "", company := "", limit := 999 } :=
  rfl

/-- Claim C6 (amended): constructing a request with an empty skills list
raises a validation error before any processing; but construction performs no
other validation — it merely strips the skills and drops blank ones (so a
list of only-blank skills is accepted and yields a request with no skills),
and any experience level, job type and limit are stored verbatim; an
unrecognized experience level or job type is later silently omitted from the
compiled query parameters rather than rejected. -/
theorem C6_request_validation_amended :
    (∀ (location experience_level job_type company : String) (limit : Int),
      JobSearchRequest.make [] location experience_level job_type company limit
        = Except.error "At least one skill must be provided") ∧
    (∀ (skills : List String) (location experience_level job_type company : String)
        (limit : Int), skills ≠ [] →
      JobSearchRequest.make skills location experience_level job_type company limit
        = Except.ok { skills := skills.filterMap (fun sk => if pyStrip sk ≠ "" then some (pyStrip sk) else none), location := location, experience_level := experience_level, job_type := job_type, company := company, limit := limit }) ∧
    (∀ (r : JobSearchRequest) (v : String),
      lookupTable experienceMapping r.experience_level = none →
        ("f_E", v) ∉ buildParams r) ∧
    (∀ (r : JobSearchRequest) (v : String),
      lookupTable jobTypeMapping r.job_type = none →
        ("f_JT", v) ∉ buildParams r) := by
  refine ⟨fun loc el jt co lim => rfl, ?_, ?_, ?_⟩
  · intro skills loc el jt co lim h
    rw [JobSearchRequest.make, if_neg (by simp [List.isEmpty_iff, h])]
  · intro r v h hm
    rcases buildParams_keys r _ hm with hk | hk | hk | hk | hk | hk | hk
    · exact absurd (show ("f_E" : String) = "keywords" from hk) (by decide)
    · exact absurd (show ("f_E" : String) = "location" from hk) (by decide)
    · rw [h] at hk
      cases hk.2
    · exact absurd (show ("f_E" : String) = "f_JT" from hk.1) (by decide)
    · exact absurd (show ("f_E" : String) = "f_C" from hk) (by decide)
    · exact absurd (show ("f_E" : String) = "f_TPR" from hk) (by decide)
    · exact absurd (show ("f_E" : String) = "start" from hk) (by decide)
  · intro r v h hm
    rcases buildParams_keys r _ hm with hk | hk | hk | hk | hk | hk | hk
    · exact absurd (show ("f_JT" : String) = "keywords" from hk) (by decide)
    · exact absurd (show ("f_JT" : String) = "location" from hk) (by decide)
    · exact absurd (show ("f_JT" : String) = "f_E" from hk.1) (by decide)
    · rw [h] at hk
      cases hk.2
    · exact absurd (show ("f_JT" : String) = "f_C" from hk) (by decide)
    · exact absurd (show ("f_JT" : String) = "f_TPR" from hk) (by decide)
    · exact absurd (show ("f_JT" : String) = "start" from hk) (by decide)

/-- Witness for C6: construction of a valid request stores the enum fields
and limit verbatim, and a request with the unmapped experience level
"senior" compiles to parameters with no `f_E` entry. -/
theorem C6_request_validation_amended_witness :
    ((["Python"] : List String) ≠ [] ∧
      JobSearchRequest.make ["Python"] "" "senior" "" "" 999
        = Except.ok { skills := (["Python"] : List String).filterMap (fun sk => if pyStrip sk ≠ "" then some (pyStrip sk) else none), location := "", experience_level := "senior", job_type := "", company := "", limit := 999 }) ∧
    (lookupTable experienceMapping "senior" = none ∧
      ("f_E", "4") ∉ buildParams { skills := ["Python"], experience_level := "senior" }) :=
  ⟨⟨by simp, C6_request_validation_amended.2.1 ["Python"] "" "senior" "" "" 999 (by simp)⟩,
   ⟨rfl, C6_request_validation_amended.2.2.1
      { skills := ["Python"], experience_level := "senior" } "4" rfl⟩⟩

/-- Claim C7: whenever the collaborator fails (driver setup or navigation
raises) or the results list does not become ready within the timeout, the
search returns a well-formed envelope with success = false, an empty record
list and a non-empty message rather than propagating the exception; and the
driver is released (quit in the finally block) on every path on which it was
acquired. -/
theorem C7_failure_envelope_and_release :
    (∀ (env : BrowserEnv) (defaults : List String) (req : JobSearchRequest),
      env.setup = none → (search_jobs env defaults req).2 = true) ∧
    (∀ (env : BrowserEnv) (defaults : List String) (req : JobSearchRequest),
      env.setup ≠ none ∨ env.navigate ≠ none ∨ env.waitReady = false →
        (search_jobs env defaults req).1.success = false ∧
        (search_jobs env defaults req).1.jobs = [] ∧
        (search_jobs env defaults req).1.message ≠ "") := by
  constructor
  · intro env defaults req hs
    rw [search_jobs, hs]
    cases env.navigate with
    | some f => rfl
    | none =>
      by_cases hw : env.waitReady
      · simp [hw]
      · simp [hw]
  · intro env defaults req hf
    rw [search_jobs]
    cases hsetup : env.setup with
    | some f => exact ⟨rfl, rfl, faultMessage_ne f⟩
    | none =>
      cases hnav : env.navigate with
      | some f => exact ⟨rfl, rfl, faultMessage_ne f⟩
      | none =>
        rcases hf with h | h | h
        · exact absurd hsetup h
        · exact absurd hnav h
        · rw [if_neg (by simp [h])]
          refine ⟨rfl, rfl, ?_⟩
          show ("Failed to load job listings - LinkedIn may be blocking requests" : String) ≠ ""
          decide

/-- Witness for C7: a render timeout with a successfully acquired driver. -/
theorem C7_failure_envelope_and_release_witness :
    (({ waitReady := false } : BrowserEnv).setup = none ∧
      (search_jobs { waitReady := false } defaultTargetSkills { skills := ["Python"] }).2
        = true) ∧
    ((search_jobs { waitReady := false } defaultTargetSkills { skills := ["Python"] }).1.success
        = false ∧
      (search_jobs { waitReady := false } defaultTargetSkills { skills := ["Python"] }).1.jobs
        = [] ∧
      (search_jobs { waitReady := false } defaultTargetSkills { skills := ["Python"] }).1.message
        ≠ "") :=
  ⟨⟨rfl, C7_failure_envelope_and_release.1 { waitReady := false } defaultTargetSkills
      { skills := ["Python"] } rfl⟩,
   C7_failure_envelope_and_release.2 { waitReady := false } defaultTargetSkills
      { skills := ["Python"] } (Or.inr (Or.inr rfl))⟩

/-- Counterexample to C8: the job extractor of `linkedin_scraper.py` stores
the card's href verbatim, so a job record returned by the search loop can
carry a URL that still contains its query string. -/
theorem C8_job_url_query_counterexample :
    (processContainers ["Python"] defaultTargetSkills 5
        [{ title? := some "Backend Developer", subtitle? := some "Acme", location? := some "NYC", href? := some "https://www.linkedin.com/jobs/view/123?refId=abc" }] 0).map
        (fun j => j.linkedin_url)
      = ["https://www.linkedin.com/jobs/view/123?refId=abc"] ∧
    pyIn "?" "https://www.linkedin.com/jobs/view/123?refId=abc" = true :=
  ⟨rfl, by decide⟩

/-- Claim C8 (amended): profile URLs are canonicalized — the final scraper's
`_extract_profile_url` and the profile scraper's URL collection both strip
everything from the first `'?'`, so those URLs never contain a query string —
but the job extractor of `linkedin_scraper.py` stores the href of the job
card verbatim, query string included. -/
theorem C8_url_canonicalization_amended :
    (∀ card : Card, pyIn "?" (extract_profile_url card) = false) ∧
    (∀ hrefs : List (Option String),
      (collectProfileUrls hrefs).all (fun u => !(pyIn "?" u)) = true) ∧
    (∀ (e : JobElement) (skills defaults : List String),
      (extract_job_from_element e skills defaults).map (fun j => j.linkedin_url)
        = some (match e.href? with | some u => u | none => "")) :=
  ⟨extract_profile_url_no_query, collectProfileUrls_no_query, fun _ _ _ => rfl⟩

/-- Claim C10: on every path the response's reported total equals the length
of the returned job list, and every failure response carries total 0 and an
empty list. -/
theorem C10_total_matches_length :
    ∀ (env : BrowserEnv) (defaults : List String) (req : JobSearchRequest),
      (search_jobs env defaults req).1.total_jobs_found
          = (search_jobs env defaults req).1.jobs.length ∧
      ((search_jobs env defaults req).1.success = false →
        (search_jobs env defaults req).1.total_jobs_found = 0 ∧
        (search_jobs env defaults req).1.jobs = []) := by
  intro env defaults req
  rw [search_jobs]
  cases env.setup with
  | some f => simp [failResponse]
  | none =>
    cases env.navigate with
    | some f => simp [failResponse]
    | none =>
      by_cases hw : env.waitReady
      · simp [hw]
      · simp [hw, failResponse]

/-- Witness for C10: the failure-path implication applied to a render
timeout. -/
theorem C10_total_matches_length_witness :
    (search_jobs { waitReady := false } defaultTargetSkills
        { skills := ["Python"] }).1.success = false ∧
    (search_jobs { waitReady := false } defaultTargetSkills
        { skills := ["Python"] }).1.total_jobs_found = 0 ∧
    (search_jobs { waitReady := false } defaultTargetSkills
        { skills := ["Python"] }).1.jobs = [] :=
  ⟨rfl,
   (C10_total_matches_length { waitReady := false } defaultTargetSkills
      { skills := ["Python"] }).2 rfl⟩
